import Mathlib

/-!
Verification of the scraping and sentiment modules of the
nairobi_expressway_sentiment_analysis repository.

The definitions below are a shallow embedding of `src/utils/scraper.py` and
`src/utils/sentiment.py`.  Browser state that the Python code observes through
selenium is modelled by environments of pure traces: `PageEnv.height t` is the
value of `document.body.scrollHeight` at the t-th point where the code actually
reads it, `PageEnv.captcha k` says whether a CAPTCHA-hosting iframe is present
during scroll pass `k`, `PageEnv.retry k` whether the manual "Retry" widget is
present during pass `k`, and `PageEnv.collect k` is what the caller-supplied
extraction function returns at the start of pass `k`.  Exceptions are modelled
with explicit result types; the bounded `WebDriverWait` for a height increase
after a manual-retry click is modelled as succeeding (its timeout path raises
`TimeoutException`, which falls under the generic in-body exception handling of
the `scrapeX`/`scrapeFacebook` models).
-/

namespace NEX

/-- A scraped record: the Python dict built by `collect_tweets`/`collect_posts`
(scraper.py 208, 267), as an association list from field name to field value;
`none` models a `null`/`None` value.  All dicts built by one extraction
function list their keys in the same fixed order, so association-list equality
coincides with Python dict equality on these records. -/
abbrev Rec := List (String × Option String)

/-- `MAX_MANUAL_RETRIES` (scraper.py 16). -/
def MAX_MANUAL_RETRIES : Nat := 3

/-- The `if rec not in items: items.append(rec)` accumulation step
(scraper.py 174-175): append `r` unless an equal element is already present. -/
def insertNew {α : Type} [DecidableEq α] (items : List α) (r : α) : List α :=
  if r ∈ items then items else items ++ [r]

/-- One pass of the accumulation loop body (scraper.py 173-175): fold
`insertNew` over the records returned by `collect_fn()`. -/
def collectPass {α : Type} [DecidableEq α] (items recs : List α) : List α :=
  recs.foldl insertNew items

/-- Pure trace of the page/driver behaviour visible to `_scroll_collect`.
`height t` is the height at the t-th point where the code reads it: the read
before the loop (scraper.py 168) is `height 0`, and the read after the k-th
pass's successful manual-retry wait (scraper.py 126) is `height (k + 1)`.
Note that on a pass with no Retry widget the Python code performs no height
read at all. -/
structure PageEnv (α : Type) where
  height : Nat → Nat
  captcha : Nat → Bool
  retry : Nat → Bool
  collect : Nat → List α

/-- Which branch ended the scroll loop: the two-stable-passes break
(scraper.py 152-154), the CAPTCHA break (140-141), or the manual-retry
budget break (144-145). -/
inductive Outcome
  | heightStable
  | captchaAbort
  | retryLimit
  deriving DecidableEq

/-- The tuple returned by `_advance_and_check` (scraper.py 129-157), with the
boolean `should_break` refined into `stop : Option Outcome` recording which
branch fired, and `waited` recording whether a manual-retry wait happened. -/
structure AdvanceResult where
  newH : Nat
  stable : Nat
  manual : Nat
  waited : Bool
  stop : Option Outcome
  deriving DecidableEq

/-- `_handle_retry` (scraper.py 107-126).  Returns
`(manual, new_last_h, did_wait, abort)`.  When no Retry widget is present it
returns `lastH` unchanged without reading the page height; when the widget is
present and the budget is not yet exceeded, the bounded wait succeeds and the
fresh height read is `env.height (k + 1)`. -/
def handleRetry {α : Type} (env : PageEnv α) (k manual lastH : Nat) :
    Nat × Nat × Bool × Bool :=
  if env.retry k = false then (manual, lastH, false, false)
  else
    let m := manual + 1
    if MAX_MANUAL_RETRIES < m then (m, lastH, false, true)
    else (m, env.height (k + 1), true, false)

/-- `_advance_and_check` (scraper.py 129-157): scroll once, then check CAPTCHA,
then the Retry widget, then the stability counter.  On the no-retry path the
`new_h` it compares against `last_h` is the unchanged `last_h` returned by
`_handle_retry`, exactly as in the source. -/
def advanceAndCheck {α : Type} (env : PageEnv α) (k lastH stable manual : Nat) :
    AdvanceResult :=
  if env.captcha k then ⟨lastH, stable, manual, false, some .captchaAbort⟩
  else
    match handleRetry env k manual lastH with
    | (m, newH, waited, abort) =>
      if abort then ⟨newH, stable, m, false, some .retryLimit⟩
      else if waited then ⟨newH, 0, m, true, none⟩
      else if newH = lastH then
        if 2 ≤ stable + 1 then ⟨newH, stable + 1, m, false, some .heightStable⟩
        else ⟨newH, stable + 1, m, false, none⟩
      else ⟨newH, 0, m, false, none⟩

/-- Result of one `_scroll_collect` run: the accumulated deduplicated items,
the number of loop passes executed (= number of `collect_fn()` calls = number
of scroll commands issued), the number of manual-retry wait-and-continue
cycles, and which branch terminated the loop. -/
structure ScrollResult (α : Type) where
  items : List α
  passes : Nat
  waits : Nat
  outcome : Outcome
  deriving DecidableEq

/-- The `while True` loop of `_scroll_collect` (scraper.py 172-179), with
explicit fuel; `none` means the fuel ran out (we prove below that fuel 15
always suffices, so the loop terminates). -/
def scrollLoop {α : Type} [DecidableEq α] (env : PageEnv α) :
    Nat → Nat → List α → Nat → Nat → Nat → Nat → Option (ScrollResult α)
  | 0, _, _, _, _, _, _ => none
  | fuel + 1, k, items, lastH, stable, manual, waits =>
    let items' := collectPass items (env.collect k)
    let a := advanceAndCheck env k lastH stable manual
    match a.stop with
    | some o => some ⟨items', k + 1, waits, o⟩
    | none =>
      scrollLoop env fuel (k + 1) items' a.newH a.stable a.manual
        (waits + if a.waited then 1 else 0)

/-- `_scroll_collect` (scraper.py 160-181): start from the initial height read,
empty accumulator, zero counters. -/
def scrollCollect {α : Type} [DecidableEq α] (env : PageEnv α) :
    Option (ScrollResult α) :=
  scrollLoop env 15 0 [] (env.height 0) 0 0 0

/-- The concatenation of everything `collect_fn()` returned over passes
`k, k+1, ..., k+n-1`. -/
def seg {α : Type} (env : PageEnv α) (k n : Nat) : List α :=
  ((List.range' k n).map env.collect).flatten

/-- One `//article[@data-testid='tweet']` container as `collect_tweets`
(scraper.py 201-211) sees it: each field records the outcome of the
corresponding DOM lookup.  `textEl`/`userEl` are `none` when
`find_element` raises for the tweet-text / user selector, otherwise the
`.text.strip()` result; `timeEl` is `none` when the `time` element is missing,
otherwise `some v` where `v` is the `datetime` attribute
(`get_attribute` itself may return `null`, hence the inner `Option`). -/
structure XCard where
  textEl : Option String
  userEl : Option String
  timeEl : Option (Option String)
  deriving DecidableEq

/-- `collect_tweets` (scraper.py 201-211): the three lookups run inside one
`try` whose `except WebDriverException: continue` skips the whole card, so a
record is produced exactly when all three elements are located. -/
def collectTweets (cards : List XCard) : List Rec :=
  cards.filterMap fun c =>
    match c.textEl, c.userEl, c.timeEl with
    | some t, some u, some d =>
      some [("content", some t), ("username", some u), ("date", d)]
    | _, _, _ => none

/-- The `abbr` element of a Facebook post card, with its two attributes and
its text (element text is always a string, possibly empty). -/
structure FBAbbr where
  dataUtime : Option String
  title : Option String
  text : String
  deriving DecidableEq

/-- One `//div[@role='article']` container as `collect_posts`
(scraper.py 258-270) sees it: `textEl` is `none` when the `div[dir='auto']`
lookup raises, `abbrEl` is `none` when the `abbr` lookup raises. -/
structure FBCard where
  textEl : Option String
  abbrEl : Option FBAbbr
  deriving DecidableEq

/-- Python's `a or b` on an optional string and a string: an absent (`None`)
or empty string is falsy and falls through to `b`. -/
def pyOr (a : Option String) (b : String) : String :=
  match a with
  | none => b
  | some s => if s = "" then b else s

/-- `collect_posts` (scraper.py 258-270): both lookups run inside one `try`
whose `except WebDriverException: continue` skips the whole card; the record
has only the two keys `post_text` and `post_time`, and `post_time` is the
first truthy of the two `abbr` attributes and the `abbr` text. -/
def collectPosts (cards : List FBCard) : List Rec :=
  cards.filterMap fun c =>
    match c.textEl, c.abbrEl with
    | some t, some a =>
      some [("post_text", some t),
            ("post_time", some (pyOr a.dataUtime (pyOr a.title a.text)))]
    | _, _ => none

/-- Exceptions that the scraper code can observe (all selenium failures are
`WebDriverException`s; `TimeoutException` is its subclass raised by waits). -/
inductive PyErr
  | webdriver
  | timeout
  deriving DecidableEq

/-- Outcome of running a Python call: a returned value or a raised exception
propagating to the caller. -/
inductive PyResult (α : Type)
  | ok (val : α)
  | raised (e : PyErr)
  deriving DecidableEq

/-- Whether a browser OS process was created by this call, and whether it was
closed (`drv.quit()`) before the call returned. -/
structure SessionInfo where
  created : Bool
  closed : Bool
  deriving DecidableEq

/-- The two failure points inside `_init_driver` (scraper.py 23-38):
`chromeOk` is whether `webdriver.Chrome(options=opts)` succeeds (line 32;
failure means no browser process exists), and `setupOk` is whether the
subsequent `set_page_load_timeout`/`execute_cdp_cmd` calls succeed (lines
33-37; a failure there raises after the browser process was created). -/
structure InitEnv where
  chromeOk : Bool
  setupOk : Bool
  deriving DecidableEq

/-- What one scrape call gives its caller: the returned value or propagated
exception, plus the fate of the browser session. -/
structure ScrapeReturn where
  result : PyResult (List Rec)
  session : SessionInfo
  deriving DecidableEq

/-- Environment of one `scrape_x` invocation: the `_init_driver` outcome,
whether `_safe_get` returns `True` (scraper.py 71-87, after its internal
retries), whether `_check_login_wall` fires, whether the waits inside
`_scrape_x_live` succeed (scraper.py 189-199; their timeout raises inside the
`try`), and the page trace, with the tweet cards visible at each pass. -/
structure XEnv where
  init : InitEnv
  navOk : Bool
  loginWall : Bool
  liveOk : Bool
  height : Nat → Nat
  captcha : Nat → Bool
  retry : Nat → Bool
  cards : Nat → List XCard

/-- The page trace `_scroll_collect` runs against in `scrape_x`: the
extraction function is `collect_tweets` over the currently visible cards. -/
def xPage (e : XEnv) : PageEnv Rec :=
  ⟨e.height, e.captcha, e.retry, fun k => collectTweets (e.cards k)⟩

/-- `scrape_x` (scraper.py 216-235).  `drv = _init_driver(headless)` runs
before the `try`, so an `_init_driver` exception propagates and the `finally`
does not guard it; inside the `try`, a failed `_safe_get` or a login wall
returns `[]`, any exception is caught by `except Exception` and turned into
`[]`, and the `finally` closes the driver.  `_load_cookies` only mutates
browser state, which the page trace already abstracts, and its own exceptions
are internally suppressed (scraper.py 48-65) apart from `drv.refresh`,
modelled as succeeding. -/
def scrapeX (e : XEnv) : ScrapeReturn :=
  if e.init.chromeOk = false then ⟨.raised .webdriver, ⟨false, false⟩⟩
  else if e.init.setupOk = false then ⟨.raised .webdriver, ⟨true, false⟩⟩
  else
    let body : PyResult (List Rec) :=
      if e.navOk = false then .ok []
      else if e.loginWall then .ok []
      else if e.liveOk = false then .raised .timeout
      else .ok (((scrollCollect (xPage e)).map ScrollResult.items).getD [])
    match body with
    | .ok xs => ⟨.ok xs, ⟨true, true⟩⟩
    | .raised _ => ⟨.ok [], ⟨true, true⟩⟩

/-- Environment of one `scrape_facebook` invocation (scraper.py 238-280).
The Posts-tab click is wrapped in `with suppress(Exception)` and affects only
browser state, so it needs no field of its own. -/
structure FBEnv where
  init : InitEnv
  navOk : Bool
  loginWall : Bool
  height : Nat → Nat
  captcha : Nat → Bool
  retry : Nat → Bool
  cards : Nat → List FBCard

/-- The page trace `_scroll_collect` runs against in `scrape_facebook`. -/
def fbPage (e : FBEnv) : PageEnv Rec :=
  ⟨e.height, e.captcha, e.retry, fun k => collectPosts (e.cards k)⟩

/-- `scrape_facebook` (scraper.py 238-280): same shape as `scrape_x` with
`collect_posts` and no tweet-presence wait. -/
def scrapeFacebook (e : FBEnv) : ScrapeReturn :=
  if e.init.chromeOk = false then ⟨.raised .webdriver, ⟨false, false⟩⟩
  else if e.init.setupOk = false then ⟨.raised .webdriver, ⟨true, false⟩⟩
  else
    let body : PyResult (List Rec) :=
      if e.navOk = false then .ok []
      else if e.loginWall then .ok []
      else .ok (((scrollCollect (fbPage e)).map ScrollResult.items).getD [])
    match body with
    | .ok xs => ⟨.ok xs, ⟨true, true⟩⟩
    | .raised _ => ⟨.ok [], ⟨true, true⟩⟩

/-- One entry of a parsed credential bundle, as `_load_cookies`
(scraper.py 41-68) processes it: `id` identifies the entry, `isMapping` says
whether `c['domain'] = ...` succeeds (it raises `TypeError` when `c` is not a
dict), and `addOk` whether `drv.add_cookie(c)` succeeds. -/
structure Cookie where
  id : Nat
  isMapping : Bool
  addOk : Bool
  deriving DecidableEq

/-- A credential-bundle file: whether the environment variable is set, whether
the file exists, and the parse outcome (`none` when both the JSON and the
pickle reader raise, which the outer `suppress(Exception)` swallows leaving
`cookies = []`). -/
structure CookieFile where
  pathSet : Bool
  fileExists : Bool
  parsed : Option (List Cookie)
  deriving DecidableEq

/-- The injection loop of `_load_cookies` (scraper.py 62-65): the
`c['domain']` assignment sits inside the *outer* `suppress(Exception)`, so a
non-mapping entry aborts the remaining iterations, while an `add_cookie`
failure is swallowed by the *inner* `suppress` and only skips that entry. -/
def injectLoop : List Cookie → List Nat
  | [] => []
  | c :: cs =>
    if c.isMapping = false then []
    else if c.addOk then c.id :: injectLoop cs
    else injectLoop cs

/-- What one `_load_cookies` call did: which entries were injected, whether
`drv.refresh()` ran, and whether an exception propagated to the caller. -/
structure LoadResult where
  injected : List Nat
  refreshed : Bool
  raised : Bool
  deriving DecidableEq

/-- `_load_cookies` (scraper.py 41-68): return early when no usable path is
configured; otherwise inject what the loop manages and always refresh
(`drv.refresh` modelled as succeeding). -/
def loadCookies (f : CookieFile) : LoadResult :=
  if f.pathSet = false then ⟨[], false, false⟩
  else if f.fileExists = false then ⟨[], false, false⟩
  else
    match f.parsed with
    | none => ⟨[], true, false⟩
    | some cs => ⟨injectLoop cs, true, false⟩

/-- Failure of a sentiment call: the only one the embedded code can raise is
Python's `ZeroDivisionError` from `sw_count / len(words)`. -/
inductive SentErr
  | divByZero
  deriving DecidableEq

/-- The whitespace class of Python's `str.split()` / `str.isspace()`
(CPython `Py_UNICODE_ISSPACE`): 0x09-0x0D (tab, LF, VT, FF, CR),
0x1C-0x1F (file/group/record/unit separators), 0x20 (space), 0x85 (NEL),
0xA0 (NBSP), 0x1680 (Ogham space mark), 0x2000-0x200A (en quad ... hair
space), 0x2028/0x2029 (line/paragraph separator), 0x202F (narrow NBSP),
0x205F (medium mathematical space) and 0x3000 (ideographic space). -/
def pyIsSpace (c : Char) : Bool :=
  let n := c.toNat
  (9 ≤ n && n ≤ 13) || n == 32 || (28 ≤ n && n ≤ 31) || n == 133 ||
    n == 160 || n == 5760 || (8192 ≤ n && n ≤ 8202) || n == 8232 ||
    n == 8233 || n == 8239 || n == 8287 || n == 12288

/-- Splitting a character list on runs of Python whitespace (`pyIsSpace`),
accumulating the current word in reverse; produces no empty words, like
Python's `str.split()` with no arguments. -/
def splitWSAux : List Char → List Char → List String
  | [], acc => if acc = [] then [] else [String.mk acc.reverse]
  | c :: cs, acc =>
    if pyIsSpace c then
      if acc = [] then splitWSAux cs []
      else String.mk acc.reverse :: splitWSAux cs []
    else splitWSAux cs (c :: acc)

/-- Python's `text.lower().split()`: lower-case (ASCII case mapping), split
on runs of Python's Unicode whitespace class, no empty words. -/
def pyWords (text : String) : List String :=
  splitWSAux (text.data.map Char.toLower) []

/-- `is_swahili` (sentiment.py 16-19).  The lexicon is the parsed
`swahili_lexicon.json`, a word-to-score mapping, passed in as a function
(`none` = word absent).  `sw_count / len(words)` is Python float division with
an unguarded denominator: for an empty word list it raises
`ZeroDivisionError`; otherwise the comparison with the literal `0.3` is
modelled exactly by the integer comparison `10 * swCount > 3 * len(words)`
(the two differ only for word counts beyond 9·10^14, where float rounding of
the quotient could cross the literal). -/
def isSwahili (lexicon : String → Option Int) (text : String) :
    Except SentErr Bool :=
  let words := pyWords text
  let swCount := (words.filter (fun w => (lexicon w).isSome)).length
  if words.length = 0 then .error .divByZero
  else .ok (decide (3 * words.length < 10 * swCount))

/-- `swahili_lexicon_score` (sentiment.py 21-31): sum the lexicon scores
(`swahili_lexicon.get(w, 0)`) and classify the sign. -/
def swahiliLexiconScore (lexicon : String → Option Int) (text : String) :
    String :=
  let words := pyWords text
  let score := (words.map (fun w => (lexicon w).getD 0)).sum
  if 0 < score then "positive"
  else if score < 0 then "negative"
  else "neutral"

/-- The dict returned by `analyze_sentiment` (sentiment.py 43-49).  The
TextBlob / VADER / BERT outputs are opaque external values, so their types are
parameters. -/
structure SentimentResult (α β γ : Type) where
  text : String
  textblob_polarity : α
  vader : β
  bert_sentiment : γ
  swahili_sentiment : Option String

/-- `analyze_sentiment` (sentiment.py 33-49): call the three external
classifiers (opaque total functions of the text), then gate the Swahili
lexicon label on `is_swahili`, whose division error propagates. -/
def analyzeSentiment {α β γ : Type} (textblob : String → α)
    (vader : String → β) (bert : String → γ)
    (lexicon : String → Option Int) (text : String) :
    Except SentErr (SentimentResult α β γ) :=
  match isSwahili lexicon text with
  | .error e => .error e
  | .ok sw =>
    .ok { text := text
          textblob_polarity := textblob text
          vader := vader text
          bert_sentiment := bert text
          swahili_sentiment :=
            if sw then some (swahiliLexiconScore lexicon text) else none }

/-!
### Concrete environments used by witnesses and counterexamples

Each `envC<n>...` definition is a closed input for the claim with that number:
a page trace, scrape environment, cookie file or record on which the claim
theorems are evaluated.
-/

/-- A page whose height keeps growing (100, 200, 300, ...) with a fresh record
on every pass and no CAPTCHA or Retry widget: records from pass 2 onwards are
still being revealed when the code stops. -/
def envC1w : PageEnv Nat :=
  ⟨fun t => 100 * (t + 1), fun _ => false, fun _ => false, fun k => [k]⟩

/-- A 59-character post text. -/
def c2textA : String :=
  "the expressway toll is fair and the morning ride was smooth"

/-- A longer post text of which `c2textA` is a proper prefix. -/
def c2textB : String := c2textA ++ " until mlolongo"

/-- Two records with the same author and timestamp whose texts agree on a long
common prefix (the first text is a prefix of the second) but differ. -/
def c2recA : Rec :=
  [("content", some c2textA),
   ("username", some "wanjiku"), ("date", some "2024-05-01T06:30:00Z")]

/-- Same author, timestamp and 59-character text prefix as `c2recA`, longer
text. -/
def c2recB : Rec :=
  [("content", some c2textB),
   ("username", some "wanjiku"), ("date", some "2024-05-01T06:30:00Z")]

/-- A quiet page exposing `c2recA` and `c2recB` together on the first pass. -/
def envC2x : PageEnv Rec :=
  ⟨fun _ => 7, fun _ => false, fun _ => false,
   fun k => if k = 0 then [c2recA, c2recB] else []⟩

/-- A page whose extraction repeats record `0` on every pass and adds the pass
number. -/
def envC2w : PageEnv Nat :=
  ⟨fun _ => 5, fun _ => false, fun _ => false, fun k => [0, k]⟩

/-- A `scrape_x` invocation where `webdriver.Chrome` itself fails. -/
def envC3x : XEnv :=
  ⟨⟨false, true⟩, true, false, true, fun _ => 9, fun _ => false, fun _ => false,
   fun _ => []⟩

/-- A healthy `scrape_x` invocation with one well-formed tweet card. -/
def envC3wx : XEnv :=
  ⟨⟨true, true⟩, true, false, true, fun _ => 9, fun _ => false, fun _ => false,
   fun _ => [⟨some "smooth ride on the toll road", some "amina",
              some (some "2024-05-02T07:00:00Z")⟩]⟩

/-- A `scrape_facebook` invocation whose navigation fails after the retry
budget (soft failure). -/
def envC3wf : FBEnv :=
  ⟨⟨true, true⟩, false, false, fun _ => 9, fun _ => false, fun _ => false,
   fun _ => []⟩

/-- A page that exposes a CAPTCHA frame from the first pass, with records
visible on pass 0. -/
def envC4w : PageEnv Nat :=
  ⟨fun _ => 3, fun _ => true, fun _ => false, fun k => [k, k + 10]⟩

/-- A page that always shows the manual Retry widget and grows when waited
on, with one fresh record per pass. -/
def envC5w : PageEnv Nat :=
  ⟨fun t => 10 * (t + 1), fun _ => false, fun _ => true, fun k => [k]⟩

/-- A tweet card whose text and time elements are present but whose author
element is missing. -/
def c6card : XCard :=
  ⟨some "the toll saved me an hour", none, some (some "2024-05-01T08:00:00Z")⟩

/-- A credential bundle of five entries whose first entry is not a mapping
(the `c['domain']` assignment raises) and whose other four are valid. -/
def c7file : CookieFile :=
  ⟨true, true, some [⟨0, false, true⟩, ⟨1, true, true⟩, ⟨2, true, true⟩,
                     ⟨3, true, true⟩, ⟨4, true, true⟩]⟩

/-- A credential bundle of five mapping entries where entry 3 is rejected by
`add_cookie` and the other four are valid. -/
def c7wfile : CookieFile :=
  ⟨true, true, some [⟨1, true, true⟩, ⟨2, true, true⟩, ⟨3, true, false⟩,
                     ⟨4, true, true⟩, ⟨5, true, true⟩]⟩

/-- A `scrape_x` invocation where Chrome launches but the post-launch
configuration inside `_init_driver` raises. -/
def envC8x : XEnv :=
  ⟨⟨true, false⟩, true, false, true, fun _ => 9, fun _ => false, fun _ => false,
   fun _ => []⟩

/-- A `scrape_x` invocation that takes the in-body exception path (the tweet
presence wait times out). -/
def envC8wx : XEnv :=
  ⟨⟨true, true⟩, true, false, false, fun _ => 9, fun _ => false, fun _ => false,
   fun _ => []⟩

/-- A healthy `scrape_facebook` invocation with an empty page. -/
def envC8wf : FBEnv :=
  ⟨⟨true, true⟩, true, false, fun _ => 9, fun _ => false, fun _ => false,
   fun _ => []⟩

/-- A Facebook post card with both elements present; the `abbr` has a
`data-utime` attribute. -/
def c9card : FBCard :=
  ⟨some "matatu jam cleared fast on the expressway",
   some ⟨some "1715000000", none, "May 6 at 9:12 AM"⟩⟩

/-- The record `collect_posts` builds from `c9card`. -/
def c9rec : Rec :=
  [("post_text", some "matatu jam cleared fast on the expressway"),
   ("post_time", some "1715000000")]

/-- A `scrape_facebook` invocation that collects `c9card` on pass 0 and then
hits a CAPTCHA, returning that single record. -/
def envC9f : FBEnv :=
  ⟨⟨true, true⟩, true, false, fun _ => 4, fun _ => true, fun _ => false,
   fun _ => [c9card]⟩

/-- A healthy `scrape_x` invocation whose single tweet card has a `time`
element with a null `datetime` attribute. -/
def envC9wx : XEnv :=
  ⟨⟨true, true⟩, true, false, true, fun _ => 4, fun _ => true, fun _ => false,
   fun _ => [⟨some "nice road", some "brian", some none⟩]⟩

/-- The record `collect_tweets` builds from the card of `envC9wx`. -/
def c9wrec : Rec :=
  [("content", some "nice road"), ("username", some "brian"), ("date", none)]

/-- A concrete Swahili lexicon fragment for evaluating the sentiment model. -/
def c10lex : String → Option Int :=
  fun w => if w = "habari" then some 1 else none

/-!
### Helper lemmas about the accumulation fold and the scroll loop
-/

/-- Membership after one guarded append. -/
theorem mem_insertNew {α : Type} [DecidableEq α] (items : List α) (r x : α) :
    x ∈ insertNew items r ↔ x ∈ items ∨ x = r := by
  unfold insertNew
  by_cases h : r ∈ items
  · simp only [if_pos h]
    constructor
    · exact Or.inl
    · rintro (hx | rfl)
      · exact hx
      · exact h
  · simp [if_neg h]

/-- The guarded append preserves the no-duplicates invariant. -/
theorem nodup_insertNew {α : Type} [DecidableEq α] (items : List α) (r : α)
    (h : items.Nodup) : (insertNew items r).Nodup := by
  unfold insertNew
  by_cases hr : r ∈ items
  · simpa [hr]
  · simp [hr, List.nodup_append, h]

/-- Membership after one full accumulation pass. -/
theorem mem_collectPass {α : Type} [DecidableEq α] (recs : List α) :
    ∀ (items : List α) (x : α),
      x ∈ collectPass items recs ↔ x ∈ items ∨ x ∈ recs := by
  induction recs with
  | nil => intro items x; simp [collectPass]
  | cons r rs ih =>
    intro items x
    have : collectPass items (r :: rs) = collectPass (insertNew items r) rs := rfl
    rw [this, ih, mem_insertNew]
    simp [List.mem_cons]
    tauto

/-- One accumulation pass preserves the no-duplicates invariant. -/
theorem nodup_collectPass {α : Type} [DecidableEq α] (recs : List α) :
    ∀ items : List α, items.Nodup → (collectPass items recs).Nodup := by
  induction recs with
  | nil => intro items h; simpa [collectPass]
  | cons r rs ih =>
    intro items h
    exact ih (insertNew items r) (nodup_insertNew items r h)

/-- Accumulating a concatenated stream is accumulating its parts in order. -/
theorem collectPass_append {α : Type} [DecidableEq α] (items A B : List α) :
    collectPass items (A ++ B) = collectPass (collectPass items A) B := by
  simp [collectPass, List.foldl_append]

/-- A one-pass segment is just that pass's extraction result. -/
theorem seg_one {α : Type} (env : PageEnv α) (k : Nat) :
    seg env k 1 = env.collect k := by
  simp [seg]

/-- Splitting a segment at its first pass. -/
theorem seg_succ {α : Type} (env : PageEnv α) (k n : Nat) :
    seg env k (n + 1) = env.collect k ++ seg env (k + 1) n := by
  simp [seg, List.range'_succ]

/-- Everything in a segment was returned by some pass's extraction. -/
theorem mem_seg {α : Type} (env : PageEnv α) (k n : Nat) (x : α)
    (h : x ∈ seg env k n) : ∃ i, x ∈ env.collect i := by
  simp only [seg, List.mem_flatten, List.mem_map] at h
  obtain ⟨l, ⟨i, _, rfl⟩, hx⟩ := h
  exact ⟨i, hx⟩

/-- The scroll loop terminates: with the measure
`3 * (4 - manual) + (2 - stable)` below the fuel, the loop returns.  Each pass
either stops, or bumps the manual counter (bounded by the budget 3) resetting
the stability counter, or bumps the stability counter (which stops at 2). -/
theorem scrollLoop_total {α : Type} [DecidableEq α] (env : PageEnv α) :
    ∀ fuel k items lastH stable manual waits,
      3 * (4 - manual) + (2 - stable) < fuel →
      (scrollLoop env fuel k items lastH stable manual waits).isSome = true := by
  intro fuel
  induction fuel with
  | zero =>
    intro k items lastH stable manual waits h
    exact absurd h (Nat.not_lt_zero _)
  | succ fuel ih =>
    intro k items lastH stable manual waits h
    simp only [scrollLoop]
    cases hc : env.captcha k with
    | true => simp [advanceAndCheck, hc]
    | false =>
      cases hr : env.retry k with
      | false =>
        by_cases hs : 2 ≤ stable + 1
        · simp [advanceAndCheck, handleRetry, hc, hr, hs]
        · simp [advanceAndCheck, handleRetry, hc, hr, hs]
          exact ih _ _ _ _ _ _ (by omega)
      | true =>
        by_cases hm : MAX_MANUAL_RETRIES < manual + 1
        · simp [advanceAndCheck, handleRetry, hc, hr, hm]
        · simp [advanceAndCheck, handleRetry, hc, hr, hm]
          have hm2 : manual ≤ 2 := by
            simp [MAX_MANUAL_RETRIES] at hm
            omega
          exact ih _ _ _ _ _ _ (by omega)

/-- `_scroll_collect` always returns (fuel 15 dominates the measure 14 of the
initial state). -/
theorem scrollCollect_total {α : Type} [DecidableEq α] (env : PageEnv α) :
    ∃ r, scrollCollect env = some r := by
  have h := scrollLoop_total env 15 0 [] (env.height 0) 0 0 0 (by norm_num)
  rwa [Option.isSome_iff_exists] at h

/-- Structure of a finished scroll loop: the pass counter advanced, and the
accumulated items are exactly the guarded-append fold of the concatenated
extraction stream of the executed passes over the inherited accumulator. -/
theorem scrollLoop_spec {α : Type} [DecidableEq α] (env : PageEnv α) :
    ∀ fuel k items lastH stable manual waits r,
      scrollLoop env fuel k items lastH stable manual waits = some r →
      k < r.passes ∧ r.items = collectPass items (seg env k (r.passes - k)) := by
  intro fuel
  induction fuel with
  | zero =>
    intro k items lastH stable manual waits r h
    simp [scrollLoop] at h
  | succ fuel ih =>
    intro k items lastH stable manual waits r h
    simp only [scrollLoop] at h
    cases hstop : (advanceAndCheck env k lastH stable manual).stop with
    | some o =>
      simp only [hstop] at h
      obtain rfl : ScrollResult.mk (collectPass items (env.collect k)) (k + 1)
          waits o = r := by
        exact Option.some.inj h
      refine ⟨Nat.lt_succ_self k, ?_⟩
      have hk : k + 1 - k = 1 := by omega
      simp [hk, seg_one]
    | none =>
      simp only [hstop] at h
      have h2 := ih _ _ _ _ _ _ _ h
      refine ⟨by omega, ?_⟩
      have hn : r.passes - k = (r.passes - (k + 1)) + 1 := by omega
      rw [hn, seg_succ, collectPass_append]
      exact h2.2

/-- Structure of a finished `_scroll_collect` run. -/
theorem scrollCollect_spec {α : Type} [DecidableEq α] (env : PageEnv α)
    (r : ScrollResult α) (h : scrollCollect env = some r) :
    0 < r.passes ∧ r.items = collectPass [] (seg env 0 r.passes) := by
  have h2 := scrollLoop_spec env 15 0 [] (env.height 0) 0 0 0 r h
  simpa using h2

/-- On a page with no CAPTCHA and no Retry widget across two passes, the loop
starting with stability counter 0 stops after exactly those two passes: the
no-retry path of `_handle_retry` hands `last_h` back unchanged, so the
`new_h == last_h` test succeeds on every such pass whatever the page height
does. -/
theorem scrollLoop_two_stable {α : Type} [DecidableEq α] (env : PageEnv α)
    (fuel k : Nat) (items : List α) (lastH manual waits : Nat)
    (hc0 : env.captcha k = false) (hc1 : env.captcha (k + 1) = false)
    (hr0 : env.retry k = false) (hr1 : env.retry (k + 1) = false) :
    scrollLoop env (fuel + 2) k items lastH 0 manual waits =
      some ⟨collectPass (collectPass items (env.collect k))
              (env.collect (k + 1)), k + 1 + 1, waits, .heightStable⟩ := by
  simp [scrollLoop, advanceAndCheck, handleRetry, hc0, hc1, hr0, hr1]

/-- A CAPTCHA present during pass `k` stops the loop at that pass, returning
the accumulator as extended by pass `k`'s extraction. -/
theorem scrollLoop_captcha_stop {α : Type} [DecidableEq α] (env : PageEnv α)
    (fuel k : Nat) (items : List α) (lastH stable manual waits : Nat)
    (hc : env.captcha k = true) :
    scrollLoop env (fuel + 1) k items lastH stable manual waits =
      some ⟨collectPass items (env.collect k), k + 1, waits, .captchaAbort⟩ := by
  simp [scrollLoop, advanceAndCheck, hc]

/-- On a page that always shows the Retry widget and never a CAPTCHA, the
loop waits on passes 0, 1 and 2 and stops on pass 3 when the budget check
`manual > MAX_MANUAL_RETRIES` fires, returning everything collected over the
four passes. -/
theorem scrollLoop_retry_budget {α : Type} [DecidableEq α] (env : PageEnv α)
    (fuel : Nat) (items : List α) (lastH waits : Nat)
    (hc : ∀ k, env.captcha k = false) (hr : ∀ k, env.retry k = true) :
    scrollLoop env (fuel + 4) 0 items lastH 0 0 waits =
      some ⟨collectPass (collectPass (collectPass (collectPass items
              (env.collect 0)) (env.collect 1)) (env.collect 2))
              (env.collect 3), 4, waits + 1 + 1 + 1, .retryLimit⟩ := by
  simp [scrollLoop, advanceAndCheck, handleRetry, MAX_MANUAL_RETRIES,
        hc 0, hc 1, hc 2, hc 3, hr 0, hr 1, hr 2, hr 3]

/-- Once `_init_driver` has returned, `scrape_x` always hands back an `ok`
result and a closed session: the whole body runs inside
`try ... except Exception ... finally drv.quit()`. -/
theorem scrapeX_cases (e : XEnv) (h1 : e.init.chromeOk = true)
    (h2 : e.init.setupOk = true) :
    scrapeX e =
      ⟨.ok (if e.navOk = false then []
            else if e.loginWall then []
            else if e.liveOk = false then []
            else ((scrollCollect (xPage e)).map ScrollResult.items).getD []),
       ⟨true, true⟩⟩ := by
  by_cases hn : e.navOk = false <;> by_cases hl : e.loginWall <;>
    by_cases hv : e.liveOk = false <;> simp [scrapeX, h1, h2, hn, hl, hv]

/-- Once `_init_driver` has returned, `scrape_facebook` always hands back an
`ok` result and a closed session. -/
theorem scrapeFacebook_cases (e : FBEnv) (h1 : e.init.chromeOk = true)
    (h2 : e.init.setupOk = true) :
    scrapeFacebook e =
      ⟨.ok (if e.navOk = false then []
            else if e.loginWall then []
            else ((scrollCollect (fbPage e)).map ScrollResult.items).getD []),
       ⟨true, true⟩⟩ := by
  by_cases hn : e.navOk = false <;> by_cases hl : e.loginWall <;>
    simp [scrapeFacebook, h1, h2, hn, hl]

/-- Every record `collect_tweets` produces is the three-key content /
username / date dict. -/
theorem mem_collectTweets_shape (cards : List XCard) (rec : Rec)
    (h : rec ∈ collectTweets cards) :
    ∃ t u d, rec = [("content", some t), ("username", some u), ("date", d)] := by
  simp only [collectTweets, List.mem_filterMap] at h
  obtain ⟨c, _, hc⟩ := h
  rcases c with ⟨te, ue, de⟩
  cases te with
  | none => simp at hc
  | some t =>
    cases ue with
    | none => simp at hc
    | some u =>
      cases de with
      | none => simp at hc
      | some d =>
        simp only [Option.some.injEq] at hc
        exact ⟨t, u, d, hc.symm⟩

/-- Every record `collect_posts` produces is the two-key post_text /
post_time dict. -/
theorem mem_collectPosts_shape (cards : List FBCard) (rec : Rec)
    (h : rec ∈ collectPosts cards) :
    ∃ t w, rec = [("post_text", some t), ("post_time", some w)] := by
  simp only [collectPosts, List.mem_filterMap] at h
  obtain ⟨c, _, hc⟩ := h
  rcases c with ⟨te, ae⟩
  cases te with
  | none => simp at hc
  | some t =>
    cases ae with
    | none => simp at hc
    | some a =>
      simp only [Option.some.injEq] at hc
      exact ⟨t, pyOr a.dataUtime (pyOr a.title a.text), hc.symm⟩

/-- Every record in a successful `scrape_x` result came from `collect_tweets`
on some pass. -/
theorem scrapeX_mem (e : XEnv) (xs : List Rec) (h1 : e.init.chromeOk = true)
    (h2 : e.init.setupOk = true) (h : (scrapeX e).result = .ok xs)
    (rec : Rec) (hm : rec ∈ xs) :
    ∃ i, rec ∈ collectTweets (e.cards i) := by
  rw [scrapeX_cases e h1 h2] at h
  simp only [PyResult.ok.injEq] at h
  subst h
  by_cases hn : e.navOk = false
  · simp [hn] at hm
  · by_cases hl : e.loginWall
    · simp [hn, hl] at hm
    · by_cases hv : e.liveOk = false
      · simp [hn, hl, hv] at hm
      · simp [hn, hl, hv] at hm
        cases ho : scrollCollect (xPage e) with
        | none => rw [ho] at hm; simp at hm
        | some r =>
          rw [ho] at hm
          simp only [Option.map_some', Option.getD_some] at hm
          have hspec := scrollCollect_spec (xPage e) r ho
          rw [hspec.2, mem_collectPass] at hm
          rcases hm with hm | hm
          · simp at hm
          · obtain ⟨i, hi⟩ := mem_seg (xPage e) 0 r.passes rec hm
            exact ⟨i, hi⟩

/-- Every record in a successful `scrape_facebook` result came from
`collect_posts` on some pass. -/
theorem scrapeFacebook_mem (e : FBEnv) (ys : List Rec)
    (h1 : e.init.chromeOk = true) (h2 : e.init.setupOk = true)
    (h : (scrapeFacebook e).result = .ok ys) (rec : Rec) (hm : rec ∈ ys) :
    ∃ i, rec ∈ collectPosts (e.cards i) := by
  rw [scrapeFacebook_cases e h1 h2] at h
  simp only [PyResult.ok.injEq] at h
  subst h
  by_cases hn : e.navOk = false
  · simp [hn] at hm
  · by_cases hl : e.loginWall
    · simp [hn, hl] at hm
    · simp [hn, hl] at hm
      cases ho : scrollCollect (fbPage e) with
      | none => rw [ho] at hm; simp at hm
      | some r =>
        rw [ho] at hm
        simp only [Option.map_some', Option.getD_some] at hm
        have hspec := scrollCollect_spec (fbPage e) r ho
        rw [hspec.2, mem_collectPass] at hm
        rcases hm with hm | hm
        · simp at hm
        · obtain ⟨i, hi⟩ := mem_seg (fbPage e) 0 r.passes rec hm
          exact ⟨i, hi⟩

/-!
### Claim theorems
-/

/-- Claim C1 (code bug): on a page with no CAPTCHA frame and no Retry widget,
`_scroll_collect` always terminates after exactly two scroll passes and
returns the deduplicated records of passes 0 and 1 only, *whatever the page
height trace is*.  The claim says the loop keeps scrolling until the height
has been observed unchanged across 2 consecutive passes and returns the
records visible through the pass N where growth stops; but the code never
re-reads the height on the no-retry path (`_handle_retry` hands `last_h` back
unchanged and `_advance_and_check` compares it with itself), so for a page
still growing at pass 2 the records revealed there are never collected. -/
theorem c1_loop_ignores_height {α : Type} [DecidableEq α] (env : PageEnv α)
    (hc : ∀ k, env.captcha k = false) (hr : ∀ k, env.retry k = false) :
    scrollCollect env =
      some ⟨collectPass (collectPass [] (env.collect 0)) (env.collect 1),
            2, 0, .heightStable⟩ :=
  scrollLoop_two_stable env 13 0 [] (env.height 0) 0 0
    (hc 0) (hc 1) (hr 0) (hr 1)

/-- Witness for C1 at the failing input `envC1w`: heights 100, 200, 300, ...
keep growing and a fresh record is revealed on every pass, yet the loop stops
after two passes with records 0 and 1, never collecting the record visible at
pass 2. -/
theorem c1_loop_ignores_height_witness :
    scrollCollect envC1w = some ⟨[0, 1], 2, 0, .heightStable⟩ ∧
    envC1w.collect 2 = [2] ∧ (2 : Nat) ∉ [0, 1] ∧
    envC1w.height 2 ≠ envC1w.height 1 := by
  refine ⟨?_, rfl, by decide, by decide⟩
  rw [c1_loop_ignores_height envC1w (fun k => rfl) (fun k => rfl)]
  rfl

set_option maxRecDepth 8192 in
/-- Claim C2 (counterexample): `c2recA` and `c2recB` share the author, the
timestamp and a 59-character text prefix (the first text is a prefix of the
second), yet both survive in the output of the scroll loop — the code dedups
by whole-dict equality, not by an (author, timestamp, text-prefix) key. -/
theorem c2_counterexample :
    scrollCollect envC2x = some ⟨[c2recA, c2recB], 2, 0, .heightStable⟩ ∧
    c2recA ≠ c2recB ∧
    c2recA.lookup "username" = c2recB.lookup "username" ∧
    c2recA.lookup "date" = c2recB.lookup "date" ∧
    c2recA.lookup "content" = some (some c2textA) ∧
    c2recB.lookup "content" = some (some c2textB) ∧
    c2textA.take 59 = c2textB.take 59 ∧ c2textA ≠ c2textB := by
  refine ⟨by rfl, by decide, rfl, rfl, rfl, rfl, by decide, by decide⟩

/-- Claim C2 (amended): the dedup key is full record equality (entire text,
author and timestamp all equal).  Every finished scroll loop returns a list
with no two equal records, and that list is exactly the guarded first-seen
fold (`collectPass []`) of the concatenated per-pass extraction stream: each
record value is appended at its first occurrence and every later exact
duplicate is dropped, so the output is in first-seen order. -/
theorem c2_dedup_full_equality {α : Type} [DecidableEq α] (env : PageEnv α)
    (r : ScrollResult α) (h : scrollCollect env = some r) :
    r.items.Nodup ∧ r.items = collectPass [] (seg env 0 r.passes) := by
  have h2 := scrollCollect_spec env r h
  exact ⟨by rw [h2.2]; exact nodup_collectPass _ _ List.nodup_nil, h2.2⟩

/-- Witness for the amended C2 on the page `envC2w`, whose extraction repeats
record 0 on every pass. -/
theorem c2_dedup_full_equality_witness :
    ([0, 1] : List Nat).Nodup ∧
    ([0, 1] : List Nat) = collectPass [] (seg envC2w 0 2) := by
  have h := c2_dedup_full_equality envC2w ⟨[0, 1], 2, 0, .heightStable⟩ rfl
  exact h

/-- Claim C3 (counterexample): when `webdriver.Chrome` fails to launch, the
exception propagates out of `scrape_x` uncaught — `drv = _init_driver(...)`
runs before the `try`, so no empty list is returned. -/
theorem c3_counterexample :
    scrapeX envC3x = ⟨.raised .webdriver, ⟨false, false⟩⟩ := rfl

/-- Claim C3 (amended): once `_init_driver` has returned a driver, no failure
escapes `scrape_x` or `scrape_facebook`: navigation failure after the retry
budget and login-wall detection return `[]`, CAPTCHA detection and
manual-retry exhaustion return the partial list, and any in-body exception is
caught and turned into `[]`.  A browser launch or post-launch setup failure,
however, propagates (the spec itself calls launch failure fatal in 4.1). -/
theorem c3_soft_failures_never_raise (ex : XEnv) (ef : FBEnv)
    (hx1 : ex.init.chromeOk = true) (hx2 : ex.init.setupOk = true)
    (hf1 : ef.init.chromeOk = true) (hf2 : ef.init.setupOk = true) :
    (∃ xs, (scrapeX ex).result = .ok xs) ∧
    (∃ ys, (scrapeFacebook ef).result = .ok ys) ∧
    ((ex.navOk = false ∨ ex.loginWall = true) →
      (scrapeX ex).result = .ok []) ∧
    ((ef.navOk = false ∨ ef.loginWall = true) →
      (scrapeFacebook ef).result = .ok []) := by
  rw [scrapeX_cases ex hx1 hx2, scrapeFacebook_cases ef hf1 hf2]
  refine ⟨⟨_, rfl⟩, ⟨_, rfl⟩, ?_, ?_⟩
  · rintro (hn | hl)
    · simp [hn]
    · simp [hl]
  · rintro (hn | hl)
    · simp [hn]
    · simp [hl]

/-- Witness for the amended C3: a healthy X scrape and a Facebook scrape whose
navigation failed both return `ok` results. -/
theorem c3_soft_failures_never_raise_witness :
    (∃ xs, (scrapeX envC3wx).result = .ok xs) ∧
    (∃ ys, (scrapeFacebook envC3wf).result = .ok ys) ∧
    (scrapeFacebook envC3wf).result = .ok [] := by
  have h := c3_soft_failures_never_raise envC3wx envC3wf rfl rfl rfl rfl
  exact ⟨h.1, h.2.1, h.2.2.2 (Or.inl rfl)⟩

/-- Claim C4 (confirmed): a CAPTCHA frame present on the first pass stops the
scroll loop at that pass: one extraction (pass 0) has run, its deduplicated
records are returned, one scroll command was issued and no wait or further
pass happens. -/
theorem c4_captcha_short_circuit {α : Type} [DecidableEq α] (env : PageEnv α)
    (hc : env.captcha 0 = true) :
    scrollCollect env =
      some ⟨collectPass [] (env.collect 0), 1, 0, .captchaAbort⟩ :=
  scrollLoop_captcha_stop env 14 0 [] (env.height 0) 0 0 0 hc

/-- Witness for C4: on `envC4w` the loop returns pass 0's two records after a
single pass. -/
theorem c4_captcha_short_circuit_witness :
    scrollCollect envC4w = some ⟨[0, 10], 1, 0, .captchaAbort⟩ := by
  rw [c4_captcha_short_circuit envC4w rfl]
  rfl

/-- Claim C5 (confirmed): on a page that always shows the manual Retry widget
(and no CAPTCHA), the loop performs exactly 3 wait-and-continue cycles; on the
4th encounter the budget check fires and the loop stops gracefully, keeping
and returning everything collected over the four passes — the same return
path as normal height-stability termination, not a discarding abort. -/
theorem c5_retry_budget {α : Type} [DecidableEq α] (env : PageEnv α)
    (hc : ∀ k, env.captcha k = false) (hr : ∀ k, env.retry k = true) :
    scrollCollect env =
      some ⟨collectPass (collectPass (collectPass (collectPass []
              (env.collect 0)) (env.collect 1)) (env.collect 2))
              (env.collect 3), 4, 3, .retryLimit⟩ :=
  scrollLoop_retry_budget env 11 [] (env.height 0) 0 hc hr

/-- Witness for C5: on `envC5w` the loop returns the records of passes 0-3
after exactly 3 manual-retry waits. -/
theorem c5_retry_budget_witness :
    scrollCollect envC5w = some ⟨[0, 1, 2, 3], 4, 3, .retryLimit⟩ := by
  rw [c5_retry_budget envC5w (fun k => rfl) (fun k => rfl)]
  rfl

/-- Claim C6 (counterexample): `c6card` has its text and time elements but no
author element; the claim says a record with a null author is still produced,
but `collect_tweets` skips the item entirely — the single
`except WebDriverException: continue` covers all three lookups. -/
theorem c6_counterexample :
    collectTweets [c6card] = [] ∧
    c6card.textEl = some "the toll saved me an hour" ∧
    c6card.userEl = none := ⟨rfl, rfl, rfl⟩

/-- Claim C6 (amended): field extraction is all-or-nothing.  A record is
produced from a container exactly when every looked-up element (text, author
and time for X; text and abbr for Facebook) is located, and then it carries
all fields; failure to locate any one of them — not only the primary text —
skips the whole item.  (Only the `datetime`/`data-utime` attribute values may
still be null on a produced record.) -/
theorem c6_all_or_nothing :
    (∀ t u d, collectTweets [⟨some t, some u, some d⟩] =
      [[("content", some t), ("username", some u), ("date", d)]]) ∧
    (∀ u d, collectTweets [⟨none, u, d⟩] = []) ∧
    (∀ t d, collectTweets [⟨some t, none, d⟩] = []) ∧
    (∀ t u, collectTweets [⟨some t, some u, none⟩] = []) ∧
    (∀ t a, collectPosts [⟨some t, some a⟩] =
      [[("post_text", some t),
        ("post_time", some (pyOr a.dataUtime (pyOr a.title a.text)))]]) ∧
    (∀ a, collectPosts [⟨none, a⟩] = []) ∧
    (∀ t, collectPosts [⟨some t, none⟩] = []) :=
  ⟨fun _ _ _ => rfl, fun _ _ => rfl, fun _ _ => rfl, fun _ _ => rfl,
   fun _ _ => rfl, fun _ => rfl, fun _ => rfl⟩

/-- Claim C7 (counterexample): in the five-entry bundle `c7file` the first
entry is not a mapping, so the `c['domain']` assignment raises inside the
outer `suppress(Exception)` and the remaining four valid entries are never
injected — the claim that every valid entry is applied fails.  The page is
still reloaded and nothing is raised. -/
theorem c7_counterexample :
    loadCookies c7file = ⟨[], true, false⟩ ∧
    (⟨1, true, true⟩ : Cookie) ∈ (c7file.parsed.getD []) ∧
    (1 : Nat) ∉ (loadCookies c7file).injected := ⟨rfl, by decide, by decide⟩

/-- The injection loop applies exactly the injectable entries of the longest
mapping-only prefix of the bundle. -/
theorem injectLoop_eq (cs : List Cookie) :
    injectLoop cs = ((cs.takeWhile (fun c => c.isMapping)).filter
      (fun c => c.addOk)).map (fun c => c.id) := by
  induction cs with
  | nil => rfl
  | cons c cs ih =>
    cases hm : c.isMapping with
    | false => simp [injectLoop, hm, List.takeWhile_cons]
    | true =>
      cases ha : c.addOk with
      | false => simp [injectLoop, hm, ha, List.takeWhile_cons, List.filter_cons, ih]
      | true => simp [injectLoop, hm, ha, List.takeWhile_cons, List.filter_cons, ih]

/-- Claim C7 (amended): session establishment never raises and always reloads
the page when a configured bundle exists; an entry rejected by `add_cookie`
is skipped individually, but an entry that is not a mapping stops injection of
every later entry, so exactly the injectable entries of the longest
mapping-only prefix are applied.  In particular, with 1 injection-rejected
entry out of 5 mappings, the other 4 are all applied. -/
theorem c7_cookie_injection (f : CookieFile) (cs : List Cookie)
    (h1 : f.pathSet = true) (h2 : f.fileExists = true)
    (h3 : f.parsed = some cs) :
    loadCookies f =
      ⟨((cs.takeWhile (fun c => c.isMapping)).filter (fun c => c.addOk)).map
        (fun c => c.id), true, false⟩ := by
  simp [loadCookies, h1, h2, h3, injectLoop_eq]

/-- Witness for the amended C7: in `c7wfile` entry 3 of 5 fails injection and
the other four are applied, with a reload and no exception. -/
theorem c7_cookie_injection_witness :
    loadCookies c7wfile = ⟨[1, 2, 4, 5], true, false⟩ := by
  rw [c7_cookie_injection c7wfile _ rfl rfl rfl]
  rfl

/-- Claim C8 (counterexample): when Chrome launches but the post-launch
configuration inside `_init_driver` raises, a browser process was created,
the exception propagates, and no `quit` runs — the session leaks, because
`drv = _init_driver(headless)` sits outside the `try/finally`. -/
theorem c8_counterexample :
    scrapeX envC8x = ⟨.raised .webdriver, ⟨true, false⟩⟩ := rfl

/-- Claim C8 (amended): on every path on which `_init_driver` returns (so in
particular whenever its post-launch setup does not raise), a session is
closed if and only if it was created: the `finally drv.quit()` covers normal
completion, soft failures and in-body exceptions alike, and a launch failure
creates no session at all.  Only a failure between browser launch and
`_init_driver`'s return leaks the session. -/
theorem c8_session_closed (ex : XEnv) (ef : FBEnv)
    (hx : ex.init.setupOk = true) (hf : ef.init.setupOk = true) :
    (scrapeX ex).session.closed = (scrapeX ex).session.created ∧
    (scrapeFacebook ef).session.closed = (scrapeFacebook ef).session.created := by
  constructor
  · cases hc : ex.init.chromeOk with
    | false => simp [scrapeX, hc]
    | true => rw [scrapeX_cases ex hc hx]
  · cases hc : ef.init.chromeOk with
    | false => simp [scrapeFacebook, hc]
    | true => rw [scrapeFacebook_cases ef hc hf]

/-- Witness for the amended C8: an X scrape that takes the in-body exception
path and a healthy Facebook scrape both close their created sessions. -/
theorem c8_session_closed_witness :
    (scrapeX envC8wx).session.closed = (scrapeX envC8wx).session.created ∧
    (scrapeFacebook envC8wf).session.closed =
      (scrapeFacebook envC8wf).session.created :=
  c8_session_closed envC8wx envC8wf rfl rfl

/-- Claim C9 (counterexample): a successful `scrape_facebook` call returns the
record `c9rec`, which has a string text and a string time but no username or
author field at all — the claimed record shape with a username/author key
fails for the Facebook records. -/
theorem c9_counterexample :
    (scrapeFacebook envC9f).result = .ok [c9rec] ∧
    c9rec.lookup "username" = none ∧ c9rec.lookup "author" = none ∧
    c9rec.lookup "post_text" =
      some (some "matatu jam cleared fast on the expressway") :=
  ⟨rfl, rfl, rfl, rfl⟩

/-- Claim C9 (amended): every record of a successful `scrape_x` call has a
string content field, a string username field and a date field that is a
string or null; every record of a successful `scrape_facebook` call has
a string post_text field and a string post_time field and no username or
author field. -/
theorem c9_record_shapes (ex : XEnv) (ef : FBEnv) (xs ys : List Rec)
    (hx1 : ex.init.chromeOk = true) (hx2 : ex.init.setupOk = true)
    (hf1 : ef.init.chromeOk = true) (hf2 : ef.init.setupOk = true)
    (hx : (scrapeX ex).result = .ok xs)
    (hf : (scrapeFacebook ef).result = .ok ys)
    (recx recf : Rec) (hmx : recx ∈ xs) (hmf : recf ∈ ys) :
    ((∃ t, recx.lookup "content" = some (some t)) ∧
     (∃ u, recx.lookup "username" = some (some u)) ∧
     (∃ d, recx.lookup "date" = some d)) ∧
    ((∃ t, recf.lookup "post_text" = some (some t)) ∧
     (∃ w, recf.lookup "post_time" = some (some w)) ∧
     recf.lookup "username" = none ∧ recf.lookup "author" = none) := by
  obtain ⟨i, hi⟩ := scrapeX_mem ex xs hx1 hx2 hx recx hmx
  obtain ⟨t, u, d, rfl⟩ := mem_collectTweets_shape _ _ hi
  obtain ⟨j, hj⟩ := scrapeFacebook_mem ef ys hf1 hf2 hf recf hmf
  obtain ⟨t2, w2, rfl⟩ := mem_collectPosts_shape _ _ hj
  exact ⟨⟨⟨t, rfl⟩, ⟨u, rfl⟩, ⟨d, rfl⟩⟩, ⟨t2, rfl⟩, ⟨w2, rfl⟩, rfl, rfl⟩

/-- Witness for the amended C9, on a healthy X scrape returning `c9wrec` and
a Facebook scrape returning `c9rec`. -/
theorem c9_record_shapes_witness :
    ((∃ t, c9wrec.lookup "content" = some (some t)) ∧
     (∃ u, c9wrec.lookup "username" = some (some u)) ∧
     (∃ d, c9wrec.lookup "date" = some d)) ∧
    ((∃ t, c9rec.lookup "post_text" = some (some t)) ∧
     (∃ w, c9rec.lookup "post_time" = some (some w)) ∧
     c9rec.lookup "username" = none ∧ c9rec.lookup "author" = none) :=
  c9_record_shapes envC9wx envC9f [c9wrec] [c9rec] rfl rfl rfl rfl rfl rfl
    c9wrec c9rec (by decide) (by decide)

/-- The Swahili lexicon label is always one of the three sign labels. -/
theorem swahiliLexiconScore_mem (lexicon : String → Option Int)
    (text : String) :
    swahiliLexiconScore lexicon text = "positive" ∨
    swahiliLexiconScore lexicon text = "negative" ∨
    swahiliLexiconScore lexicon text = "neutral" := by
  simp only [swahiliLexiconScore]
  split
  · exact Or.inl rfl
  · split
    · exact Or.inr (Or.inl rfl)
    · exact Or.inr (Or.inr rfl)

/-- Claim C10 (confirmed): when the lower-cased whitespace-split word list of
the input is non-empty, `analyze_sentiment` returns the five-field dict (its
text, the three opaque classifier outputs and a Swahili label among positive
/ negative / neutral / None); when the input is empty or whitespace-only, the
unguarded `sw_count / len(words)` in `is_swahili` raises a division-by-zero
error. -/
theorem c10_analyze_sentiment_total {α β γ : Type}
    (textblob : String → α) (vader : String → β) (bert : String → γ)
    (lexicon : String → Option Int) (text : String) :
    (pyWords text ≠ [] →
      ∃ r, analyzeSentiment textblob vader bert lexicon text = .ok r ∧
        r.text = text ∧ r.textblob_polarity = textblob text ∧
        r.vader = vader text ∧ r.bert_sentiment = bert text ∧
        (r.swahili_sentiment = some "positive" ∨
         r.swahili_sentiment = some "negative" ∨
         r.swahili_sentiment = some "neutral" ∨
         r.swahili_sentiment = none)) ∧
    (pyWords text = [] →
      analyzeSentiment textblob vader bert lexicon text =
        .error .divByZero) := by
  constructor
  · intro hne
    have hlen : ¬ (pyWords text).length = 0 := by
      intro h0
      exact hne (List.length_eq_zero.mp h0)
    simp only [analyzeSentiment, isSwahili, hlen, if_false, ite_false]
    refine ⟨_, rfl, rfl, rfl, rfl, rfl, ?_⟩
    split
    · rcases swahiliLexiconScore_mem lexicon text with h | h | h
      · exact Or.inl (by rw [h])
      · exact Or.inr (Or.inl (by rw [h]))
      · exact Or.inr (Or.inr (Or.inl (by rw [h])))
    · exact Or.inr (Or.inr (Or.inr rfl))
  · intro he
    have hlen : (pyWords text).length = 0 := by rw [he]; rfl
    simp [analyzeSentiment, isSwahili, hlen]

/-- Witness for C10: on the Swahili greeting the call returns the full dict
with a positive label; on a whitespace-only input it raises the division
error. -/
theorem c10_analyze_sentiment_total_witness :
    (∃ r, analyzeSentiment (fun _ => (0 : Nat)) (fun _ => (0 : Nat))
        (fun _ => (0 : Nat)) c10lex "Habari yako" = .ok r ∧
        r.text = "Habari yako" ∧ r.textblob_polarity = 0 ∧ r.vader = 0 ∧
        r.bert_sentiment = 0 ∧
        (r.swahili_sentiment = some "positive" ∨
         r.swahili_sentiment = some "negative" ∨
         r.swahili_sentiment = some "neutral" ∨
         r.swahili_sentiment = none)) ∧
    analyzeSentiment (fun _ => (0 : Nat)) (fun _ => (0 : Nat))
      (fun _ => (0 : Nat)) c10lex "   " = .error .divByZero := by
  constructor
  · exact (c10_analyze_sentiment_total (fun _ => (0 : Nat))
      (fun _ => (0 : Nat)) (fun _ => (0 : Nat)) c10lex "Habari yako").1
      (by decide)
  · exact (c10_analyze_sentiment_total (fun _ => (0 : Nat))
      (fun _ => (0 : Nat)) (fun _ => (0 : Nat)) c10lex "   ").2 (by decide)

end NEX

